import Mathlib

/-! C++ Cheat Sheet: ownership, dispatch and lookup

A shallow embedding of the snippets of `OOP.cpp` and `Basics.cpp` that carry
lifetime, dispatch or lookup behaviour:

* `OOP.cpp`: the `Animal / Mammal / Bird / Bat` diamond, the virtual
  `Animal::makeSound / Dog::makeSound` pair, the `Math::add` overloads and the
  `Engine / Car` composition;
* `Basics.cpp`: the `A / B` circular-reference example built from
  `shared_ptr` and `weak_ptr`, and its `main`.

Standard output is a list of lines: every output statement of these snippets
has the shape `std::cout << "text" << std::endl`.
-/

/-- Standard output, one entry per line terminated by `std::endl`. -/
abbrev Out := List String

/-- The statement `std::cout << line << std::endl`. -/
def cout (out : Out) (line : String) : Out := out ++ [line]

/-- Several output statements in sequence. -/
def coutAll (out : Out) (lines : List String) : Out := lines.foldl cout out

namespace OOP

/-! ## Classes, sub-objects, member lookup -/

/-- One entry of a base-specifier list: `public C` or `public virtual C`. -/
structure BaseSpec where
  cls : String
  isVirtual : Bool
deriving DecidableEq, Repr

/-- A member function whose body is a sequence of output statements. -/
structure Method where
  name : String
  declaredVirtual : Bool
  body : List String
deriving DecidableEq, Repr

/-- A class definition: bases in declaration order, member functions, and the
user-provided destructor when there is one. -/
structure ClassDecl where
  name : String
  bases : List BaseSpec
  methods : List Method
  dtor : Option Method
deriving DecidableEq, Repr

abbrev ClassTable := List ClassDecl

def findClass (tbl : ClassTable) (c : String) : Option ClassDecl :=
  tbl.find? (fun d => d.name == c)

/-- Recursion bound for walks over the inheritance graph of a table. -/
def depthBound (tbl : ClassTable) : Nat := tbl.length + 1

/-- Sub-objects of an object of class `c`, each named by its inheritance path.
A non-virtual base continues the path of the derived sub-object, so it is laid
out once per path; a virtual base starts a fresh path, so every path to it names
the same sub-object. -/
def subobjectPaths (tbl : ClassTable) : Nat → List String → String → List (List String)
  | 0, _, _ => []
  | fuel + 1, path, c =>
    match findClass tbl c with
    | none => []
    | some d =>
      (path ++ [c]) :: d.bases.flatMap (fun b =>
        subobjectPaths tbl fuel (if b.isVirtual then [] else path ++ [c]) b.cls)

/-- The distinct sub-objects of a complete object of class `c`. -/
def subobjects (tbl : ClassTable) (c : String) : List (List String) :=
  (subobjectPaths tbl (depthBound tbl) [] c).dedup

/-- The sub-objects of class `base` inside a complete object of class `c`. -/
def subobjectsOf (tbl : ClassTable) (c base : String) : List (List String) :=
  (subobjects tbl c).filter (fun p => p.getLast? == some base)

/-- Member name lookup in the scope of class `c`: a declaration in `c` hides
the bases; otherwise the bases are searched in turn. Each hit is the
sub-object in which the member was found. -/
def lookupPaths (tbl : ClassTable) : Nat → List String → String → String → List (List String)
  | 0, _, _, _ => []
  | fuel + 1, path, c, m =>
    match findClass tbl c with
    | none => []
    | some d =>
      if d.methods.any (fun f => f.name == m) then [path ++ [c]]
      else d.bases.flatMap (fun b =>
        lookupPaths tbl fuel (if b.isVirtual then [] else path ++ [c]) b.cls m)

/-- Outcome of looking up a member name. -/
inductive Lookup
  | notFound
  | unique (path : List String)
  | ambiguous (paths : List (List String))
deriving DecidableEq, Repr

/-- Unqualified lookup of member `m` from inside class `c`. -/
def lookupMember (tbl : ClassTable) (c m : String) : Lookup :=
  match (lookupPaths tbl (depthBound tbl) [] c m).dedup with
  | [] => .notFound
  | [p] => .unique p
  | ps => .ambiguous ps

/-- The lookup reaches the member through the direct base `b` of `c`. -/
def foundThrough (tbl : ClassTable) (c m b : String) : Bool :=
  ((lookupPaths tbl (depthBound tbl) [] c m).dedup).any (fun p => p.take 2 == [c, b])

/-- The member function named `m` declared in class `c` itself. -/
def declaredMethod (tbl : ClassTable) (c m : String) : Option Method :=
  (findClass tbl c).bind (fun d => d.methods.find? (fun f => f.name == m))

/-- Whether `c::m` is virtual: declared so, or overriding a virtual function
of a base class. -/
def isVirtualMethod (tbl : ClassTable) : Nat → String → String → Bool
  | 0, _, _ => false
  | fuel + 1, c, m =>
    match findClass tbl c with
    | none => false
    | some d =>
      d.methods.any (fun f => f.name == m && f.declaredVirtual)
        || d.bases.any (fun b => isVirtualMethod tbl fuel b.cls m)

/-! ## Objects, base-typed handles, calls -/

/-- A complete object: where it lives and the class it was created as. -/
structure Object where
  addr : Nat
  dynType : String
deriving DecidableEq, Repr

/-- A pointer `T*` to an object. -/
structure Ptr where
  staticType : String
  target : Object
deriving DecidableEq, Repr

/-- The initialisation `T* p = &o`: well-formed when `T` is the class of `o` or
an unambiguous base of it. -/
def addressAs (tbl : ClassTable) (T : String) (o : Object) : Option Ptr :=
  match subobjectsOf tbl o.dynType T with
  | [_] => some ⟨T, o⟩
  | _ => none

/-- Run the body of the member `m` found by lookup from class `c`. -/
def runFrom (tbl : ClassTable) (c m : String) (out : Out) : Option Out :=
  match lookupMember tbl c m with
  | .unique path =>
    (path.getLast?.bind (fun d => declaredMethod tbl d m)).map (fun f => coutAll out f.body)
  | _ => none

/-- The call `p->m()`. The name is looked up in the static type; a virtual
function then runs the final overrider of the dynamic type, a non-virtual one
runs the function found statically. -/
def callMember (tbl : ClassTable) (p : Ptr) (m : String) (out : Out) : Option Out :=
  match lookupMember tbl p.staticType m with
  | .unique path =>
    match path.getLast? with
    | none => none
    | some d =>
      if isVirtualMethod tbl (depthBound tbl) d m then runFrom tbl p.target.dynType m out
      else runFrom tbl p.staticType m out
  | _ => none

/-! ## Destruction order -/

/-- Output of a destructor as a base-object destructor: its body, then the
non-virtual direct bases in reverse declaration order. -/
def destroyBase (tbl : ClassTable) : Nat → String → List String
  | 0, _ => []
  | fuel + 1, c =>
    match findClass tbl c with
    | none => []
    | some d =>
      (match d.dtor with
        | some f => f.body
        | none => [])
      ++ (d.bases.reverse.filter (fun b => !b.isVirtual)).flatMap (fun b =>
        destroyBase tbl fuel b.cls)

/-- Virtual bases of `c` in construction order (depth-first, left to right). -/
def virtualBasesAux (tbl : ClassTable) : Nat → String → List String
  | 0, _ => []
  | fuel + 1, c =>
    match findClass tbl c with
    | none => []
    | some d =>
      d.bases.flatMap (fun b =>
        virtualBasesAux tbl fuel b.cls ++ (if b.isVirtual then [b.cls] else []))

def virtualBases (tbl : ClassTable) (c : String) : List String :=
  (virtualBasesAux tbl (depthBound tbl) c).reverse.dedup.reverse

/-- Output of tearing down a complete object of class `c`: its destructor and
non-virtual bases, then its virtual bases in reverse construction order. -/
def destroyObject (tbl : ClassTable) (c : String) : List String :=
  destroyBase tbl (depthBound tbl) c
    ++ (virtualBases tbl c).reverse.flatMap (fun v => destroyBase tbl (depthBound tbl) v)

/-! ## The classes of `OOP.cpp` -/

namespace Inheritance

/-- Source: `class Animal` with `eat()` and a virtual destructor. -/
def Animal : ClassDecl :=
  { name := "Animal", bases := [],
    methods := [⟨"eat", false, ["Eating..."]⟩],
    dtor := some ⟨"~Animal", true, ["Animal destructor called"]⟩ }

/-- Source: `class Mammal : public Animal`. -/
def Mammal : ClassDecl :=
  { name := "Mammal", bases := [⟨"Animal", false⟩],
    methods := [⟨"breathe", false, ["Breathing..."]⟩],
    dtor := none }

/-- Source: `class Bird : public Animal`. -/
def Bird : ClassDecl :=
  { name := "Bird", bases := [⟨"Animal", false⟩],
    methods := [⟨"fly", false, ["Flying..."]⟩],
    dtor := none }

/-- Source: `class Bat : public Mammal, public Bird`; the three calls inside
`navigate` are commented out, so its body is one output statement. -/
def Bat : ClassDecl :=
  { name := "Bat", bases := [⟨"Mammal", false⟩, ⟨"Bird", false⟩],
    methods := [⟨"navigate", false, ["Navigating..."]⟩],
    dtor := none }

def classes : ClassTable := [Animal, Mammal, Bird, Bat]

/-- The hierarchy described under "Diamond Problem and Solution": the same
classes with `Animal` declared a virtual base of `Mammal` and of `Bird`. The
source describes it in prose only. -/
def virtualClasses : ClassTable :=
  [Animal,
   { Mammal with bases := [⟨"Animal", true⟩] },
   { Bird with bases := [⟨"Animal", true⟩] },
   Bat]

end Inheritance

namespace Polymorphism

/-- Source: `class Animal` with `virtual void makeSound()`. -/
def Animal : ClassDecl :=
  { name := "Animal", bases := [],
    methods := [⟨"makeSound", true, ["Animal makes a sound"]⟩],
    dtor := some ⟨"~Animal", true, ["Animal destructor called"]⟩ }

/-- Source: `class Dog : public Animal` with `void makeSound() override`. -/
def Dog : ClassDecl :=
  { name := "Dog", bases := [⟨"Animal", false⟩],
    methods := [⟨"makeSound", false, ["Dog barks"]⟩],
    dtor := some ⟨"~Dog", false, ["Dog destructor called"]⟩ }

def classes : ClassTable := [Animal, Dog]

/-- Source: `Dog myDog; Animal* myAnimal = &myDog; myAnimal->makeSound();`
for a `Dog` object `myDog`. -/
def runtimeExample (myDog : Object) (out : Out) : Option Out :=
  (addressAs classes "Animal" myDog).bind (fun myAnimal =>
    callMember classes myAnimal "makeSound" out)

end Polymorphism

/-! ## Composition: `Engine` and `Car` -/

/-- Source: `class Engine`; it has no data members. -/
structure Engine where
deriving DecidableEq, Repr

/-- Source: `class Car` with the private member `Engine engine`. -/
structure Car where
  engine : Engine
deriving DecidableEq, Repr

/-- Source: `void Engine::start()`. -/
def Engine.start (_self : Engine) (out : Out) : Out :=
  cout out "Engine started"

/-- Source: `void Car::start()`. -/
def Car.start (self : Car) (out : Out) : Out :=
  cout (self.engine.start out) "Car started"

/-! ## Overloading: `Math::add` -/

/-- Argument and parameter types of the `Math::add` overloads. -/
inductive Ty
  | int
  | float
deriving DecidableEq, Repr

/-- A value with its static type; `F` stands for the values of `float`. -/
inductive Value (F : Type)
  | int (n : Int)
  | float (x : F)

def Value.ty {F : Type} : Value F → Ty
  | .int _ => .int
  | .float _ => .float

/-- The `float` operations the snippet relies on. -/
structure FloatOps (F : Type) where
  add : F → F → F
  ofInt : Int → F
  toInt : F → Int

def INT_MIN : Int := -2147483648

def INT_MAX : Int := 2147483647

/-- A mathematical integer reduced to a 32-bit two's-complement `int`. -/
def wrapInt (x : Int) : Int := (x + 2 ^ 31) % 2 ^ 32 - 2 ^ 31

/-- Parameter types and return type of one overload. -/
structure Signature where
  params : List Ty
  ret : Ty
deriving DecidableEq, Repr

/-- Rank of the implicit conversion from argument type `a` to parameter type
`p`: `0` for an exact match, `1` for a conversion between `int` and `float`. -/
def convRank (a p : Ty) : Nat := if a = p then 0 else 1

def ranks (args : List Ty) (f : Signature) : List Nat :=
  List.zipWith convRank args f.params

/-- Candidate `f` is better than `g` for these arguments: no argument converts
worse and at least one converts strictly better. -/
def better (args : List Ty) (f g : Signature) : Bool :=
  (List.zipWith (fun x y => decide (x ≤ y)) (ranks args f) (ranks args g)).all id
    && (List.zipWith (fun x y => decide (x < y)) (ranks args f) (ranks args g)).any id

/-- Overload resolution from the static argument types: the index of the one
viable candidate better than every other, if there is one. -/
def resolveOverload (cands : List Signature) (args : List Ty) : Option Nat :=
  let viable := (List.range cands.length).filter (fun i =>
    match cands.get? i with
    | some f => f.params.length == args.length
    | none => false)
  let best := viable.filter (fun i => viable.all (fun j =>
    i == j ||
      match cands.get? i, cands.get? j with
      | some f, some g => better args f g
      | _, _ => false))
  match best with
  | [i] => some i
  | _ => none

/-- Implicit conversion of an argument to a parameter type. -/
def convertTo {F : Type} (ops : FloatOps F) (p : Ty) : Value F → Value F
  | .int n =>
    match p with
    | .int => .int n
    | .float => .float (ops.ofInt n)
  | .float x =>
    match p with
    | .int => .int (wrapInt (ops.toInt x))
    | .float => .float x

/-- Source: `int add(int a, int b) { return a + b; }`. Overflow of a signed
sum is undefined in C++; here it wraps to 32 bits. -/
def Math.add_int (a b : Int) : Int := wrapInt (a + b)

/-- Source: `float add(float a, float b) { return a + b; }`. -/
def Math.add_float {F : Type} (ops : FloatOps F) (a b : F) : F := ops.add a b

/-- One choice of `float` operations, exact arithmetic on rationals, for
running calls on concrete arguments. -/
def exactOps : FloatOps Rat :=
  { add := fun x y => x + y, ofInt := fun n => (n : Rat), toInt := fun x => Rat.floor x }

/-- The overload set of `Math::add`, in declaration order. -/
def Math.addOverloads : List Signature :=
  [⟨[.int, .int], .int⟩, ⟨[.float, .float], .float⟩]

/-- The call `mathObj.add(x, y)`: the overload is chosen from the static types
of the arguments, the arguments are converted to its parameter types and its
body runs. An ambiguous call does not compile. -/
def Math.add {F : Type} (ops : FloatOps F) (x y : Value F) : Option (Value F) :=
  match resolveOverload Math.addOverloads [x.ty, y.ty] with
  | some 0 =>
    match convertTo ops .int x, convertTo ops .int y with
    | .int a, .int b => some (.int (Math.add_int a b))
    | _, _ => none
  | some 1 =>
    match convertTo ops .float x, convertTo ops .float y with
    | .float a, .float b => some (.float (Math.add_float ops a b))
    | _, _ => none
  | _ => none

end OOP

namespace Basics

/-! ## `shared_ptr` and `weak_ptr` over a heap of control blocks -/

/-- A smart-pointer handle: empty, or the index of a control block. -/
abbrev Handle := Option Nat

/-- The objects of the circular-reference example with their data members:
`class A { weak_ptr<B> b_ptr; }` and `class B { shared_ptr<A> a_ptr; }`. -/
inductive Obj
  | A (b_ptr : Handle)
  | B (a_ptr : Handle)
deriving DecidableEq, Repr

/-- A control block: the shared count (`use_count`), the number of weak
handles, the managed object and whether it has been destroyed yet. -/
structure Block where
  strong : Int
  weak : Int
  obj : Obj
  alive : Bool
deriving DecidableEq, Repr

/-- What a run leaves behind, in order: lines written to `std::cout`, and each
new value a shared count takes. -/
inductive Event
  | print (line : String)
  | useCount (id : Nat) (n : Int)
deriving DecidableEq, Repr

structure State where
  heap : List Block
  log : List Event
deriving DecidableEq, Repr

/-- The statement `cout << line << endl`. -/
def State.cout (s : State) (line : String) : State :=
  { s with log := s.log ++ [.print line] }

/-- The lines written to standard output so far. -/
def State.stdout (s : State) : Out :=
  s.log.filterMap (fun e =>
    match e with
    | .print l => some l
    | .useCount _ _ => none)

def updBlock (s : State) (id : Nat) (f : Block → Block) : State :=
  match s.heap.get? id with
  | some blk => { s with heap := s.heap.set id (f blk) }
  | none => s

/-- Store a new shared count in block `id`. -/
def setStrong (s : State) (id : Nat) (n : Int) : State :=
  let s1 := updBlock s id (fun blk => { blk with strong := n })
  { s1 with log := s1.log ++ [.useCount id n] }

/-- `use_count()`: the shared count of the target, `0` for an empty handle. -/
def useCount (s : State) : Handle → Int
  | none => 0
  | some id =>
    match s.heap.get? id with
    | some blk => blk.strong
    | none => 0

/-- The two smart-pointer templates the example uses. -/
inductive PtrKind
  | shared
  | weak
deriving DecidableEq, Repr

/-- Source: the data member `weak_ptr<B> b_ptr` of `class A`. -/
def kind_b_ptr : PtrKind := .weak

/-- Source: the data member `shared_ptr<A> a_ptr` of `class B`. -/
def kind_a_ptr : PtrKind := .shared

/-- Whether the template has a member function `expired()`: `std::weak_ptr`
has one, `std::shared_ptr` has none. -/
def hasExpired : PtrKind → Bool
  | .weak => true
  | .shared => false

/-- `weak_ptr::expired()`, that is `use_count() == 0`; it holds of an empty
handle. -/
def expired (s : State) (h : Handle) : Bool := useCount s h == 0

/-- The expression `p.expired()` for a handle `p` of the given kind: its value
on a `weak_ptr`; on a `shared_ptr` the expression is ill-formed and there is no
value. -/
def callExpired (k : PtrKind) (s : State) (h : Handle) : Option Bool :=
  if hasExpired k then some (expired s h) else none

/-- `shared_ptr<T> p(new T)`: the constructor of `T` runs, then a control block
owning the new object is created with shared count one. -/
def newShared (s : State) (ctorLine : String) (obj : Obj) : State × Handle :=
  let s1 := s.cout ctorLine
  let id := s1.heap.length
  ({ heap := s1.heap ++ [⟨1, 0, obj, true⟩], log := s1.log ++ [.useCount id 1] }, some id)

/-- Copying a `shared_ptr`: the shared count of its target goes up by one. -/
def acquireShared (s : State) : Handle → State
  | none => s
  | some id => setStrong s id (useCount s (some id) + 1)

/-- Creating a `weak_ptr` from a handle: only the weak count goes up. -/
def acquireWeak (s : State) : Handle → State
  | none => s
  | some id => updBlock s id (fun blk => { blk with weak := blk.weak + 1 })

/-- Destroying a `weak_ptr`: only the weak count goes down. -/
def releaseWeak (s : State) : Handle → State
  | none => s
  | some id => updBlock s id (fun blk => { blk with weak := blk.weak - 1 })

/-- Releasing a `shared_ptr`: the shared count goes down by one; when it
reaches zero the destructor body of the object runs and then its data members
are destroyed, which releases the handles they hold. The first argument bounds
the depth of nested releases; `none` means the bound was too small or the
handle refers to no block. -/
def releaseShared : Nat → State → Handle → Option State
  | _, s, none => some s
  | 0, _, some _ => none
  | fuel + 1, s, some id =>
    match s.heap.get? id with
    | none => none
    | some blk =>
      let n := blk.strong - 1
      let s1 := setStrong s id n
      if n = 0 then
        match blk.obj with
        | .A b_ptr =>
          let s2 := s1.cout "A Destructor"
          let s3 := updBlock s2 id (fun k => { k with obj := .A none, alive := false })
          some (releaseWeak s3 b_ptr)
        | .B a_ptr =>
          let s2 := s1.cout "B Destructor"
          let s3 := updBlock s2 id (fun k => { k with obj := .B none, alive := false })
          releaseShared fuel s3 a_ptr
      else some s1

/-- Nested releases go no deeper than the number of control blocks. -/
def releaseBound (s : State) : Nat := s.heap.length + 1

/-- The data member `b_ptr` of the `A` object behind a handle. -/
def get_b_ptr (s : State) (p : Handle) : Option Handle :=
  match p.bind (fun id => s.heap.get? id) with
  | some ⟨_, _, .A w, true⟩ => some w
  | _ => none

/-- The data member `a_ptr` of the `B` object behind a handle. -/
def get_a_ptr (s : State) (p : Handle) : Option Handle :=
  match p.bind (fun id => s.heap.get? id) with
  | some ⟨_, _, .B q, true⟩ => some q
  | _ => none

/-- `p->b_ptr = q`: a `weak_ptr<B>` assigned from a `shared_ptr<B>`. -/
def assign_b_ptr (s : State) (p q : Handle) : Option State := do
  let id ← p
  let old ← get_b_ptr s p
  let s1 := releaseWeak (acquireWeak s q) old
  some (updBlock s1 id (fun k => { k with obj := .A q }))

/-- `p->a_ptr = q`: a `shared_ptr<A>` copy-assigned from a `shared_ptr<A>`;
the new target is acquired before the old one is released. -/
def assign_a_ptr (s : State) (p q : Handle) : Option State := do
  let id ← p
  let old ← get_a_ptr s p
  let s1 := updBlock (acquireShared s q) id (fun k => { k with obj := .B q })
  releaseShared (releaseBound s1) s1 old

/-! ## `main` of the circular-reference example -/

/-- The local variables of `main`; `none` while a variable is not in scope. -/
structure Frame where
  a : Option Handle
  b : Option Handle
deriving DecidableEq, Repr

/-- A point of the run of `main`. -/
structure Config where
  frame : Frame
  state : State
deriving DecidableEq, Repr

/-- A statement of `main`; `none` when the statement is ill-formed or its
behaviour is undefined. -/
abbrev Step := Config → Option Config

/-- Source: `shared_ptr<A> a(new A);`. -/
def declare_a : Step := fun c =>
  let r := newShared c.state "A Constructor" (.A none)
  some ⟨{ c.frame with a := some r.2 }, r.1⟩

/-- Source: `shared_ptr<B> b(new B);`. -/
def declare_b : Step := fun c =>
  let r := newShared c.state "B Constructor" (.B none)
  some ⟨{ c.frame with b := some r.2 }, r.1⟩

/-- Source: `a->b_ptr = b;`. -/
def link_a_to_b : Step := fun c => do
  let a ← c.frame.a
  let b ← c.frame.b
  let s ← assign_b_ptr c.state a b
  some ⟨c.frame, s⟩

/-- Source: `b->a_ptr = a;`. -/
def link_b_to_a : Step := fun c => do
  let a ← c.frame.a
  let b ← c.frame.b
  let s ← assign_a_ptr c.state b a
  some ⟨c.frame, s⟩

/-- Source: `a.reset();`. -/
def reset_a : Step := fun c => do
  let a ← c.frame.a
  let s ← releaseShared (releaseBound c.state) c.state a
  some ⟨{ c.frame with a := some none }, s⟩

/-- Source: `if (b->a_ptr.expired()) { ... } else { ... }`. The condition
calls `expired()` on `b->a_ptr`, whose declared type is `shared_ptr<A>`. -/
def check_a_ptr : Step := fun c => do
  let b ← c.frame.b
  let p ← get_a_ptr c.state b
  let gone ← callExpired kind_a_ptr c.state p
  if gone then
    some ⟨c.frame, c.state.cout "Weak pointer expired"⟩
  else
    some ⟨c.frame, c.state.cout "Weak pointer still valid"⟩

/-- End of `main` after `return 0;`, first half: the local `b`, declared last,
is destroyed first. -/
def destroy_b : Step := fun c => do
  let b ← c.frame.b
  let s ← releaseShared (releaseBound c.state) c.state b
  some ⟨{ c.frame with b := none }, s⟩

/-- End of `main`, second half: the local `a` is destroyed. -/
def destroy_a : Step := fun c => do
  let a ← c.frame.a
  let s ← releaseShared (releaseBound c.state) c.state a
  some ⟨{ c.frame with a := none }, s⟩

/-- The statements of `main` in order, followed by the destruction of its
locals. -/
def mainBody : List Step :=
  [declare_a, declare_b, link_a_to_b, link_b_to_a, reset_a, check_a_ptr, destroy_b, destroy_a]

def exec (steps : List Step) (c : Config) : Option Config :=
  steps.foldlM (fun acc step => step acc) c

/-- Program start: no locals, empty heap, nothing written. -/
def start : Config := ⟨⟨none, none⟩, ⟨[], []⟩⟩

/-- The configuration after the first `k` steps of `main`. -/
def after (k : Nat) : Option Config := exec (mainBody.take k) start

/-- Source: `int main()` of the circular-reference example: all its
statements, then the destruction of its locals; `none` when a statement has no
execution. -/
def main : Option Config := exec mainBody start

/-- The block of the `A` object and the block of the `B` object, in creation
order. -/
def idA : Nat := 0

def idB : Nat := 1

/-- The destructor output of the object managed by a block. -/
def dtorLine (s : State) (id : Nat) : Option String :=
  (s.heap.get? id).map (fun blk =>
    match blk.obj with
    | .A _ => "A Destructor"
    | .B _ => "B Destructor")

def isDtorLine (l : String) : Bool := l == "A Destructor" || l == "B Destructor"

/-- A log in which every shared count reaching zero is followed at once by the
destructor output of that block's object, and destructor output occurs nowhere
else. -/
def destroyedAtZero (s : State) : List Event → Bool
  | [] => true
  | .print l :: rest => !isDtorLine l && destroyedAtZero s rest
  | .useCount id n :: rest =>
    if n = 0 then
      match rest with
      | .print l :: rest2 => dtorLine s id == some l && destroyedAtZero s rest2
      | _ => false
    else destroyedAtZero s rest

/-- No shared count recorded in the log is negative. -/
def countsNonneg : List Event → Bool
  | [] => true
  | .print _ :: rest => countsNonneg rest
  | .useCount _ n :: rest => decide (0 ≤ n) && countsNonneg rest

end Basics

/-! ## Theorems: `OOP.cpp` -/

namespace OOP

/-- C1: for every object whose dynamic type is `Dog`, the initialisation
`Animal* myAnimal = &myDog` is well-formed and `myAnimal->makeSound()` through
that `Animal`-typed handle appends exactly the line "Dog barks" to the output,
never the base default "Animal makes a sound"; the three statements of the
source's example do the same. -/
theorem makeSound_through_Animal_handle_runs_Dog (myDog : Object) (out : Out)
    (h : myDog.dynType = "Dog") :
    ∃ myAnimal : Ptr,
      addressAs Polymorphism.classes "Animal" myDog = some myAnimal ∧
      myAnimal.staticType = "Animal" ∧
      myAnimal.target = myDog ∧
      callMember Polymorphism.classes myAnimal "makeSound" out = some (out ++ ["Dog barks"]) ∧
      callMember Polymorphism.classes myAnimal "makeSound" out
        ≠ some (out ++ ["Animal makes a sound"]) ∧
      Polymorphism.runtimeExample myDog out = some (out ++ ["Dog barks"]) := by
  obtain ⟨addr, dyn⟩ := myDog
  simp only at h
  subst h
  have hcall : callMember Polymorphism.classes ⟨"Animal", ⟨addr, "Dog"⟩⟩ "makeSound" out
      = some (out ++ ["Dog barks"]) := rfl
  refine ⟨⟨"Animal", ⟨addr, "Dog"⟩⟩, rfl, rfl, rfl, hcall, ?_, rfl⟩
  rw [hcall]
  intro hEq
  have h2 := List.append_cancel_left (Option.some.inj hEq)
  exact absurd h2 (by decide)

/-- The source's `Dog myDog` at address `0`, called through `Animal*` with
nothing written before: the output is the single line "Dog barks". -/
theorem makeSound_through_Animal_handle_runs_Dog_witness :
    (⟨0, "Dog"⟩ : Object).dynType = "Dog" ∧
      ∃ myAnimal : Ptr,
        addressAs Polymorphism.classes "Animal" ⟨0, "Dog"⟩ = some myAnimal ∧
        myAnimal.staticType = "Animal" ∧
        myAnimal.target = ⟨0, "Dog"⟩ ∧
        callMember Polymorphism.classes myAnimal "makeSound" [] = some ([] ++ ["Dog barks"]) ∧
        callMember Polymorphism.classes myAnimal "makeSound" []
          ≠ some ([] ++ ["Animal makes a sound"]) ∧
        Polymorphism.runtimeExample ⟨0, "Dog"⟩ [] = some ([] ++ ["Dog barks"]) :=
  ⟨rfl, makeSound_through_Animal_handle_runs_Dog ⟨0, "Dog"⟩ [] rfl⟩

/-- A 32-bit `int` whose value is already in range is left unchanged by the
reduction to 32 bits. -/
theorem wrapInt_of_inRange (x : Int) (hlo : INT_MIN ≤ x) (hhi : x ≤ INT_MAX) :
    wrapInt x = x := by
  unfold wrapInt
  unfold INT_MIN at hlo
  unfold INT_MAX at hhi
  omega

/-- C3: for all `int` arguments `a` and `b` whose sum is representable as
`int`, overload resolution on the static argument types `(int, int)` selects
candidate `0` of `Math::add`, which is `int add(int, int)` and not the `float`
overload, and the call `mathObj.add(a, b)` returns the `int` value `a + b`. -/
theorem Math_add_int_args_run_int_overload {F : Type} (ops : FloatOps F) (a b : Int)
    (ha : INT_MIN ≤ a ∧ a ≤ INT_MAX) (hb : INT_MIN ≤ b ∧ b ≤ INT_MAX)
    (hsum : INT_MIN ≤ a + b ∧ a + b ≤ INT_MAX) :
    resolveOverload Math.addOverloads
        [(Value.int a : Value F).ty, (Value.int b : Value F).ty] = some 0 ∧
      Math.addOverloads.get? 0 = some ⟨[Ty.int, Ty.int], Ty.int⟩ ∧
      Math.add ops (Value.int a) (Value.int b) = some (Value.int (a + b)) := by
  have _ := ha
  have _ := hb
  have hres : resolveOverload Math.addOverloads [Ty.int, Ty.int] = some 0 := by decide
  refine ⟨hres, rfl, ?_⟩
  have hw : Math.add_int a b = a + b := wrapInt_of_inRange (a + b) hsum.1 hsum.2
  simp only [Math.add, Value.ty, hres, convertTo, hw]

/-- The source's call `mathObj.add(3, 4)` is the `int` value `7`. -/
theorem Math_add_int_args_run_int_overload_witness :
    (INT_MIN ≤ 3 ∧ (3 : Int) ≤ INT_MAX) ∧ (INT_MIN ≤ 4 ∧ (4 : Int) ≤ INT_MAX) ∧
      (INT_MIN ≤ 3 + 4 ∧ (3 : Int) + 4 ≤ INT_MAX) ∧
      resolveOverload Math.addOverloads
        [(Value.int 3 : Value Rat).ty, (Value.int 4 : Value Rat).ty] = some 0 ∧
      Math.addOverloads.get? 0 = some ⟨[Ty.int, Ty.int], Ty.int⟩ ∧
      Math.add exactOps (Value.int 3) (Value.int 4) = some (Value.int (3 + 4)) :=
  ⟨by decide, by decide, by decide,
    Math_add_int_args_run_int_overload exactOps 3 4 (by decide) (by decide) (by decide)⟩

/-- C6: for every `Car` object, one call to `start()` appends exactly the two
lines "Engine started" and then "Car started" to the output, in that order,
and nothing else. -/
theorem Car_start_emits_engine_then_car (myCar : Car) (out : Out) :
    myCar.start out = out ++ ["Engine started", "Car started"] := by
  simp [Car.start, Engine.start, cout]

/-- C4, as stated, fails on the source's hierarchy: a `Bat` object does not
contain exactly one `Animal` sub-object, and tearing it down does not emit
"Animal destructor called" exactly once. -/
theorem Bat_Animal_subobject_not_single :
    (subobjectsOf Inheritance.classes "Bat" "Animal").length ≠ 1 ∧
      (destroyObject Inheritance.classes "Bat").count "Animal destructor called" ≠ 1 := by
  decide

/-- C4, amended: in the source's hierarchy (`Mammal : public Animal`,
`Bird : public Animal`, `Bat : public Mammal, public Bird`, no virtual base)
`Animal` reached from `Bat` via `Mammal` and via `Bird` are two distinct
sub-objects, one per path; a `Bat` object contains exactly two `Animal`
sub-objects and tearing it down emits "Animal destructor called" exactly
twice, and nothing else. -/
theorem Bat_has_one_Animal_subobject_per_path :
    subobjectsOf Inheritance.classes "Bat" "Animal"
        = [["Bat", "Mammal", "Animal"], ["Bat", "Bird", "Animal"]] ∧
      (subobjectsOf Inheritance.classes "Bat" "Animal").length = 2 ∧
      destroyObject Inheritance.classes "Bat"
        = ["Animal destructor called", "Animal destructor called"] ∧
      (destroyObject Inheritance.classes "Bat").count "Animal destructor called" = 2 := by
  decide

/-- With `Animal` a virtual base of `Mammal` and `Bird`, as the closing comment
of the source describes, the same walk finds one shared `Animal` sub-object and
one line of destructor output. -/
theorem virtual_Bat_has_single_Animal_subobject :
    subobjectsOf Inheritance.virtualClasses "Bat" "Animal" = [["Animal"]] ∧
      destroyObject Inheritance.virtualClasses "Bat" = ["Animal destructor called"] ∧
      lookupMember Inheritance.virtualClasses "Bat" "eat" = .unique ["Animal"] := by
  decide

/-- C7, evaluated on the source's classes: from inside `Bat`, the name `eat`
is found in two sub-objects, through `Mammal` and through `Bird`; the name
`breathe` is found in one, through `Mammal` only, and the name `fly` in one,
through `Bird` only. Two of the three names resolve to a unique member. -/
theorem Bat_navigate_lookup_of_three_names :
    lookupMember Inheritance.classes "Bat" "eat"
        = .ambiguous [["Bat", "Mammal", "Animal"], ["Bat", "Bird", "Animal"]] ∧
      foundThrough Inheritance.classes "Bat" "eat" "Mammal" = true ∧
      foundThrough Inheritance.classes "Bat" "eat" "Bird" = true ∧
      lookupMember Inheritance.classes "Bat" "breathe" = .unique ["Bat", "Mammal"] ∧
      foundThrough Inheritance.classes "Bat" "breathe" "Mammal" = true ∧
      foundThrough Inheritance.classes "Bat" "breathe" "Bird" = false ∧
      lookupMember Inheritance.classes "Bat" "fly" = .unique ["Bat", "Bird"] ∧
      foundThrough Inheritance.classes "Bat" "fly" "Bird" = true ∧
      foundThrough Inheritance.classes "Bat" "fly" "Mammal" = false := by
  decide

end OOP

/-! ## Theorems: the circular-reference example of `Basics.cpp` -/

namespace Basics

/-- C2, evaluated on the source: the statements of `main` up to `a.reset()`
run, leaving the `A` object with shared count one and the `B` object with
shared count one, both alive; the next statement calls `expired()` on
`b->a_ptr`, a `shared_ptr<A>`, which has no such member, so the statement has
no execution and neither has `main`: there is no run of `main` in which a
destructor runs. -/
theorem main_stops_at_liveness_check :
    ∃ c5 : Config, after 5 = some c5 ∧
      c5.frame.b = some (some idB) ∧
      get_a_ptr c5.state (some idB) = some (some idA) ∧
      kind_a_ptr = PtrKind.shared ∧
      hasExpired kind_a_ptr = false ∧
      callExpired kind_a_ptr c5.state (some idA) = none ∧
      check_a_ptr c5 = none ∧
      after 6 = none ∧
      main = none ∧
      c5.state.heap = [⟨1, 0, .A (some idB), true⟩, ⟨1, 1, .B (some idA), true⟩] ∧
      countsNonneg c5.state.log = true := by
  refine ⟨_, rfl, ?_⟩
  decide

/-- C5, evaluated on the source: the statement `a.reset()` lowers the shared
count of the `A` object from two to one and writes nothing; after it the `A`
object is alive, still owned by `b->a_ptr`, and "A Destructor" has not been
written. -/
theorem reset_a_leaves_A_alive :
    ∃ c4 c5 : Config,
      after 4 = some c4 ∧ after 5 = some c5 ∧
      useCount c4.state (some idA) = 2 ∧
      useCount c5.state (some idA) = 1 ∧
      c5.state.stdout = c4.state.stdout ∧
      c5.state.stdout = ["A Constructor", "B Constructor"] ∧
      "A Destructor" ∉ c5.state.stdout ∧
      c5.state.heap.get? idA = some ⟨1, 0, .A (some idB), true⟩ ∧
      get_a_ptr c5.state (some idB) = some (some idA) := by
  refine ⟨_, _, rfl, rfl, ?_⟩
  decide

/-- C8, as stated, fails: after `shared_ptr<B> b(new B);` and before
`a->b_ptr = b;` the local `b` is in scope and the `B` object is alive with
shared count one, yet the weak handle `a->b_ptr` is still empty and
`a->b_ptr.expired()` is true. -/
theorem empty_b_ptr_expired_while_b_in_scope :
    ∃ c2 : Config, after 2 = some c2 ∧
      c2.frame.a = some (some idA) ∧
      c2.frame.b = some (some idB) ∧
      c2.state.heap.get? idB = some ⟨1, 0, .B none, true⟩ ∧
      get_b_ptr c2.state (some idA) = some none ∧
      callExpired kind_b_ptr c2.state none = some true := by
  refine ⟨_, rfl, ?_⟩
  decide

/-- C8, amended: after `a.reset()`, where control reaches the liveness check,
`b->a_ptr` refers to the `A` object, which is alive with shared count one; and
after each of `a->b_ptr = b;`, `b->a_ptr = a;` and `a.reset();`, with `b` in
scope, the weak handle `b_ptr` of the `A` object refers to the `B` object, the
`B` object is alive and `expired()` of that handle is false. -/
theorem linked_handles_report_alive :
    ∃ c3 c4 c5 : Config,
      after 3 = some c3 ∧ after 4 = some c4 ∧ after 5 = some c5 ∧
      (c5.frame.b = some (some idB) ∧
        get_a_ptr c5.state (some idB) = some (some idA) ∧
        (c5.state.heap.get? idA).map (fun blk => blk.alive) = some true ∧
        useCount c5.state (some idA) = 1) ∧
      (c3.frame.b = some (some idB) ∧
        get_b_ptr c3.state (some idA) = some (some idB) ∧
        (c3.state.heap.get? idB).map (fun blk => blk.alive) = some true ∧
        callExpired kind_b_ptr c3.state (some idB) = some false) ∧
      (c4.frame.b = some (some idB) ∧
        get_b_ptr c4.state (some idA) = some (some idB) ∧
        (c4.state.heap.get? idB).map (fun blk => blk.alive) = some true ∧
        callExpired kind_b_ptr c4.state (some idB) = some false) ∧
      (c5.frame.b = some (some idB) ∧
        get_b_ptr c5.state (some idA) = some (some idB) ∧
        (c5.state.heap.get? idB).map (fun blk => blk.alive) = some true ∧
        callExpired kind_b_ptr c5.state (some idB) = some false) := by
  refine ⟨_, _, _, rfl, rfl, rfl, ?_⟩
  decide

/-- C9, evaluated on the source: no destructor output is written by the
statements of `main` up to `a.reset()`; the liveness check that follows has no
execution, so `main` never reaches the destruction of its locals: after six,
seven and eight steps there is no configuration and `main` has no teardown
output. -/
theorem main_reaches_no_teardown :
    (∃ c0 c1 c2 c3 c4 c5 : Config,
      after 0 = some c0 ∧ after 1 = some c1 ∧ after 2 = some c2 ∧
      after 3 = some c3 ∧ after 4 = some c4 ∧ after 5 = some c5 ∧
      c0.state.stdout.all (fun l => !isDtorLine l) = true ∧
      c1.state.stdout.all (fun l => !isDtorLine l) = true ∧
      c2.state.stdout.all (fun l => !isDtorLine l) = true ∧
      c3.state.stdout.all (fun l => !isDtorLine l) = true ∧
      c4.state.stdout.all (fun l => !isDtorLine l) = true ∧
      c5.state.stdout.all (fun l => !isDtorLine l) = true) ∧
    after 6 = none ∧ after 7 = none ∧ after 8 = none ∧ main = none := by
  refine ⟨⟨_, _, _, _, _, _, rfl, rfl, rfl, rfl, rfl, rfl, ?_⟩, ?_⟩ <;> decide

/-- The destruction of the locals of `main`, run on the state left by
`a.reset()` with the ill-formed check left out: destroying `b` releases the
last shared handle to `B`, which writes "B Destructor" and, by releasing
`a_ptr`, "A Destructor"; destroying the empty `a` writes nothing; each
destructor line follows its shared count reaching zero, no count is negative
and both objects end destroyed. -/
theorem locals_teardown_after_reset :
    ∃ c5 c7 c8 : Config,
      after 5 = some c5 ∧ destroy_b c5 = some c7 ∧ destroy_a c7 = some c8 ∧
      c7.state.stdout = c5.state.stdout ++ ["B Destructor", "A Destructor"] ∧
      c8.state.stdout = c7.state.stdout ∧
      destroyedAtZero c8.state c8.state.log = true ∧
      countsNonneg c8.state.log = true ∧
      c8.state.heap.all (fun blk => !blk.alive && blk.strong == 0) = true := by
  refine ⟨_, _, _, rfl, rfl, rfl, ?_⟩
  decide

end Basics
